import Mathlib

/-!
Shallow embedding of the exercise-form analyzer of CoachVision
(src/backend/mediapipe_analysis.py, class MediaPipePoseAnalyzer) and of the
feedback formatter (src/backend/routers/video.py, analyze_video_with_mediapipe).

Conventions of the embedding:
* Python floats are modelled as exact rationals.
* A per-frame landmark dict is an association list from the MediaPipe landmark
  index to its record; `lmGet` models dict lookup and the `k in landmarks` test.
* The wall-clock reading `datetime.utcnow().isoformat()` performed inside each
  evaluator is modelled as an explicit `ts : String` input: each call of the
  Python code supplies the clock value current at that call.
* `np.arccos`-based angle tests `angle(u, v) > t` are embedded as the
  equivalent exact comparison `cos(angle) < cos t` on rationals (arccos is
  strictly decreasing on [0, pi]); see `cosLtCos15` and `cosLtCos20`.
-/

/-- Landmark record for one body point in one frame: the dict
`{x: .., y: .., z: .., visibility: ..}` built by `_extract_landmarks`. -/
structure Landmark where
  x : ℚ
  y : ℚ
  z : ℚ
  visibility : ℚ
deriving DecidableEq, Repr

/-- One entry of `pose_data`: the dict `{frame: .., landmarks: .., visibility: ..}`
appended by `analyze_video` for each frame with a detected pose. -/
structure PoseFrame where
  frame : ℕ
  landmarks : List (ℕ × Landmark)
  visibility : ℚ
deriving DecidableEq, Repr

/-- Dict lookup `landmarks[i]`; `(lmGet i l).isSome` models `i in landmarks`. -/
def lmGet (i : ℕ) : List (ℕ × Landmark) → Option Landmark
  | [] => none
  | (j, lm) :: rest => if i = j then some lm else lmGet i rest

/-- The analysis dict returned by every evaluator of `MediaPipePoseAnalyzer`. -/
structure AnalysisResult where
  exercise_type : String
  analysis_timestamp : String
  confidence_score : ℚ
  form_rating : String
  form_score : ℤ
  total_frames_analyzed : ℕ
  issues_detected : List String
  recommendations : List String
  areas_for_improvement : List String
deriving DecidableEq, Repr

/-- Mean of the per-frame visibilities: `np.mean([p['visibility'] for p in pose_data])`.
Only ever consumed on nonempty `pose_data` in the source (the empty case is
caught by `analyze_video` before any evaluator runs). -/
def meanVis (pd : List PoseFrame) : ℚ :=
  (pd.map PoseFrame.visibility).sum / pd.length

/-- Python `int(q)`: truncation toward zero. -/
def pyInt (q : ℚ) : ℤ :=
  if q < 0 then -Int.floor (-q) else Int.floor q

/-- The fixed rating thresholds duplicated verbatim in every `_analyze_*`
evaluator: `>= 90` Excellent, `>= 75` Good, `>= 60` Fair, else Poor. -/
def ratingOf (s : ℤ) : String :=
  if 90 ≤ s then ("Excellent")
  else if 75 ≤ s then ("Good")
  else if 60 ≤ s then ("Fair")
  else ("Poor")

/-- Rank of a rating in the order Poor < Fair < Good < Excellent, used to state
that the rating is non-increasing as the score decreases. -/
def ratingRank (r : String) : ℕ :=
  if r = "Excellent" then 3
  else if r = "Good" then 2
  else if r = "Fair" then 1
  else 0

/-- `_create_error_analysis(error_message)`: the uniform error result. Note it
hardcodes `exercise_type = "unknown"` and `total_frames_analyzed = 0`. -/
def mkError (msg ts : String) : AnalysisResult :=
  { exercise_type := "unknown"
    analysis_timestamp := ts
    confidence_score := 0
    form_rating := "Error"
    form_score := 0
    total_frames_analyzed := 0
    issues_detected := [msg]
    recommendations := [("Please ensure the video shows a clear view of the exercise")]
    areas_for_improvement := [("Video quality or pose detection issues")] }

/-- Common tail of every `_analyze_*` evaluator: the rating-threshold block,
the `max(0, form_score)` clamp, and the output dict assembly
(`areas_for_improvement = issues[:3] if issues else ["No major issues detected"]`). -/
def mkScored (name ts : String) (conf : ℚ) (n : ℕ)
    (issues recs : List String) (raw : ℤ) : AnalysisResult :=
  { exercise_type := name
    analysis_timestamp := ts
    confidence_score := conf
    form_rating := ratingOf raw
    form_score := max 0 raw
    total_frames_analyzed := n
    issues_detected := issues
    recommendations := recs
    areas_for_improvement := if issues = [] then [("No major issues detected")] else issues.take 3 }

/-- Decides `d / sqrt nsq < cos 15` for `nsq` a product of squared norms.
Rationale: cos 15 has cos^2 15 = (2 + sqrt 3)/4, so for `d >= 0` the comparison
squares to `4 d^2 - 2 nsq < sqrt 3 * nsq`, which squares again once the left
side is nonnegative.  For `nsq = 0` numpy evaluates `d/0` to nan and the
Python comparison `angle > 15` is then False, hence `false` here. -/
def cosLtCos15 (d nsq : ℚ) : Bool :=
  if nsq = 0 then false
  else if d < 0 then true
  else if 4 * d ^ 2 < 2 * nsq then true
  else decide ((4 * d ^ 2 - 2 * nsq) ^ 2 < 3 * nsq ^ 2)

/-- Decides `d / sqrt nsq < cos 20` for `nsq` a product of squared norms.
Rationale: cos 20 is the largest root of `8 c^3 - 6 c - 1` (triple-angle
formula at 60 degrees), so `y = cos^2 20` is the largest root of
`64 y^3 - 96 y^2 + 36 y - 1`, which is strictly increasing on `[3/4, inf)`;
for `r = d^2/nsq < 3/4` the comparison `r < cos^2 20` holds outright.
For `nsq = 0` the numpy comparison is with nan and does not fire. -/
def cosLtCos20 (d nsq : ℚ) : Bool :=
  if nsq = 0 then false
  else if d < 0 then true
  else
    let r := d ^ 2 / nsq
    decide (r < 3 / 4) || decide (64 * r ^ 3 - 96 * r ^ 2 + 36 * r - 1 < 0)

/-- Loop skeleton shared by the frame-scanning checks: scan the frames in
order; the first frame on which the per-frame test yields an issue label
contributes that single label and stops the scan (`break` in the source);
frames failing the landmark-presence guard are skipped (`continue`). -/
def firstHit (p : PoseFrame → Option String) : List PoseFrame → List String
  | [] => []
  | f :: rest =>
    match p f with
    | some s => [s]
    | none => firstHit p rest

/-- Per-frame body of `_check_body_alignment` (and of the identical
`_check_plank_alignment`): requires landmarks 11, 12, 23, 24, 25, 26; fires
"Body not straight" when the angle between the left shoulder-to-hip and left
hip-to-knee vectors exceeds 15 degrees. -/
def alignHit (f : PoseFrame) : Option String :=
  match lmGet 11 f.landmarks, lmGet 12 f.landmarks, lmGet 23 f.landmarks,
        lmGet 24 f.landmarks, lmGet 25 f.landmarks, lmGet 26 f.landmarks with
  | some s11, some _, some h23, some _, some k25, some _ =>
    let ux := h23.x - s11.x
    let uy := h23.y - s11.y
    let vx := k25.x - h23.x
    let vy := k25.y - h23.y
    if cosLtCos15 (ux * vx + uy * vy) ((ux ^ 2 + uy ^ 2) * (vx ^ 2 + vy ^ 2)) then
      some ("Body not straight")
    else none
  | _, _, _, _, _, _ => none

/-- `_check_body_alignment`. -/
def check_body_alignment (pd : List PoseFrame) : List String :=
  firstHit alignHit pd

/-- Per-frame body of `_check_pushup_arms`: requires landmarks 11, 12, 15, 16;
fires when wrist-to-wrist width exceeds 1.5 times shoulder-to-shoulder width. -/
def armsHit (f : PoseFrame) : Option String :=
  match lmGet 11 f.landmarks, lmGet 12 f.landmarks,
        lmGet 15 f.landmarks, lmGet 16 f.landmarks with
  | some s11, some s12, some w15, some w16 =>
    if |w16.x - w15.x| > |s12.x - s11.x| * (3 / 2) then some ("Arms too wide") else none
  | _, _, _, _ => none

/-- `_check_pushup_arms`. -/
def check_pushup_arms (pd : List PoseFrame) : List String :=
  firstHit armsHit pd

/-- Running minimum of the shoulder-midpoint y over the frames having both
shoulder landmarks (the `min_y` accumulator of `_check_pushup_depth`);
`none` models the initial `float('inf')` never being lowered. -/
def pushupMinY : List PoseFrame → Option ℚ
  | [] => none
  | f :: rest =>
    let r := pushupMinY rest
    match lmGet 11 f.landmarks, lmGet 12 f.landmarks with
    | some a, some b =>
      let m := (a.y + b.y) / 2
      match r with
      | none => some m
      | some mr => some (min m mr)
    | _, _ => r

/-- `_check_pushup_depth`: on fewer than 5 frames no issue; otherwise fires
"Insufficient depth" when the minimum shoulder-midpoint y is below 0.3
(`inf < 0.3` is False, so an untouched accumulator never fires). -/
def check_pushup_depth (pd : List PoseFrame) : List String :=
  if pd.length < 5 then []
  else
    match pushupMinY pd with
    | some m => if m < 3 / 10 then [("Insufficient depth")] else []
    | none => []

/-- `_analyze_pushup`: length gate at 10 frames, then the three checks with
penalties 10 (alignment), 15 (arms), 20 (depth), the fixed issue-to-advice
mapping, and the shared scoring tail. -/
def analyze_pushup (pd : List PoseFrame) (ts : String) : AnalysisResult :=
  if pd.length < 10 then mkError ("Video too short for pushup analysis") ts
  else
    let a := check_body_alignment pd
    let b := check_pushup_arms pd
    let c := check_pushup_depth pd
    let issues := a ++ b ++ c
    let raw : ℤ := 100 - 10 * a.length - 15 * b.length - 20 * c.length
    let recs :=
      (if issues.contains ("Body not straight") then
        [("Keep your body in a straight line from head to heels")] else []) ++
      (if issues.contains ("Arms too wide") then
        [("Keep your hands shoulder-width apart")] else []) ++
      (if issues.contains ("Insufficient depth") then
        [("Lower your body until your chest nearly touches the ground")] else []) ++
      (if issues.contains ("Elbows flaring out") then
        [("Keep your elbows close to your body")] else [])
    let recs2 := if recs = [] then [("Great form! Keep up the good work")] else recs
    mkScored ("pushup") ts (meanVis pd) pd.length issues recs2 raw

/-- Per-frame body of `_check_squat_knees`: requires landmarks 11, 12, 25, 26,
27, 28; fires when the left knee x is more than 0.1 beyond the left ankle x. -/
def kneesHit (f : PoseFrame) : Option String :=
  match lmGet 11 f.landmarks, lmGet 12 f.landmarks, lmGet 25 f.landmarks,
        lmGet 26 f.landmarks, lmGet 27 f.landmarks, lmGet 28 f.landmarks with
  | some _, some _, some k25, some _, some a27, some _ =>
    if k25.x > a27.x + 1 / 10 then some ("Knees too far forward") else none
  | _, _, _, _, _, _ => none

/-- `_check_squat_knees`. -/
def check_squat_knees (pd : List PoseFrame) : List String :=
  firstHit kneesHit pd

/-- Running minimum of the hip-midpoint y over the frames having both hip
landmarks (the `min_y` accumulator of `_check_squat_depth`). -/
def squatMinY : List PoseFrame → Option ℚ
  | [] => none
  | f :: rest =>
    let r := squatMinY rest
    match lmGet 23 f.landmarks, lmGet 24 f.landmarks with
    | some a, some b =>
      let m := (a.y + b.y) / 2
      match r with
      | none => some m
      | some mr => some (min m mr)
    | _, _ => r

/-- `_check_squat_depth`: on fewer than 5 frames no issue; otherwise fires
"Insufficient depth" when the minimum hip-midpoint y stays above 0.6.  When no
frame has both hips the accumulator stays `inf` and `inf > 0.6` is True in
Python, so the issue fires. -/
def check_squat_depth (pd : List PoseFrame) : List String :=
  if pd.length < 5 then []
  else
    match squatMinY pd with
    | some m => if m > 3 / 5 then [("Insufficient depth")] else []
    | none => [("Insufficient depth")]

/-- Per-frame body of `_check_squat_back`: requires landmarks 11, 12, 23, 24;
fires when the angle between the left shoulder-to-hip vector and the upward
unit vector `[0, -1]` exceeds 20 degrees (dot product is `-uy`, and the
product of squared norms is `ux^2 + uy^2` since the unit vector has norm 1). -/
def backHit (f : PoseFrame) : Option String :=
  match lmGet 11 f.landmarks, lmGet 12 f.landmarks,
        lmGet 23 f.landmarks, lmGet 24 f.landmarks with
  | some s11, some _, some h23, some _ =>
    let ux := h23.x - s11.x
    let uy := h23.y - s11.y
    if cosLtCos20 (-uy) (ux ^ 2 + uy ^ 2) then some ("Back not straight") else none
  | _, _, _, _ => none

/-- `_check_squat_back`. -/
def check_squat_back (pd : List PoseFrame) : List String :=
  firstHit backHit pd

/-- `_analyze_squat`: length gate at 10 frames, checks with penalties
15 (knees), 20 (depth), 15 (back). -/
def analyze_squat (pd : List PoseFrame) (ts : String) : AnalysisResult :=
  if pd.length < 10 then mkError ("Video too short for squat analysis") ts
  else
    let a := check_squat_knees pd
    let b := check_squat_depth pd
    let c := check_squat_back pd
    let issues := a ++ b ++ c
    let raw : ℤ := 100 - 15 * a.length - 20 * b.length - 15 * c.length
    let recs :=
      (if issues.contains ("Knees too far forward") then
        [("Keep your knees behind your toes")] else []) ++
      (if issues.contains ("Insufficient depth") then
        [("Lower your body until thighs are parallel to ground")] else []) ++
      (if issues.contains ("Back not straight") then
        [("Keep your back straight and chest up")] else []) ++
      (if issues.contains ("Knees caving in") then
        [("Keep your knees aligned with your toes")] else [])
    let recs2 := if recs = [] then [("Great squat form! Keep it up")] else recs
    mkScored ("squat") ts (meanVis pd) pd.length issues recs2 raw

/-- Shared body of the simplified placeholder checks: the fixed label fires
whenever more than 10 frames were analyzed, regardless of landmark content. -/
def lenGatedIssue (label : String) (pd : List PoseFrame) : List String :=
  if pd.length > 10 then [label] else []

/-- `_check_bench_press_bar_path` (placeholder check). -/
def check_bench_press_bar_path (pd : List PoseFrame) : List String :=
  lenGatedIssue ("Bar path not straight") pd

/-- `_check_bench_press_shoulders` (placeholder check). -/
def check_bench_press_shoulders (pd : List PoseFrame) : List String :=
  lenGatedIssue ("Shoulders not retracted") pd

/-- `_check_bench_press_grip` (placeholder check). -/
def check_bench_press_grip (pd : List PoseFrame) : List String :=
  lenGatedIssue ("Grip too wide") pd

/-- `_analyze_bench_press`: length gate at 10 frames, placeholder checks with
penalties 15 (bar path), 10 (shoulders), 10 (grip). -/
def analyze_bench_press (pd : List PoseFrame) (ts : String) : AnalysisResult :=
  if pd.length < 10 then mkError ("Video too short for bench press analysis") ts
  else
    let a := check_bench_press_bar_path pd
    let b := check_bench_press_shoulders pd
    let c := check_bench_press_grip pd
    let issues := a ++ b ++ c
    let raw : ℤ := 100 - 15 * a.length - 10 * b.length - 10 * c.length
    let recs :=
      (if issues.contains ("Bar path not straight") then
        [("Keep the bar path straight and controlled")] else []) ++
      (if issues.contains ("Shoulders not retracted") then
        [("Retract your shoulder blades throughout the movement")] else []) ++
      (if issues.contains ("Grip too wide") then
        [("Keep your grip shoulder-width apart")] else []) ++
      (if issues.contains ("Bar bouncing off chest") then
        [("Control the bar descent and touch chest lightly")] else [])
    let recs2 := if recs = [] then [("Excellent bench press form!")] else recs
    mkScored ("bench_press") ts (meanVis pd) pd.length issues recs2 raw

/-- `_check_plank_alignment`: identical per-frame logic to
`_check_body_alignment` (same guard, same left-side angle test, same label). -/
def check_plank_alignment (pd : List PoseFrame) : List String :=
  firstHit alignHit pd

/-- Per-frame body of `_check_plank_hips`: requires landmarks 11, 12, 23, 24;
compares the hip-midpoint y to the shoulder-midpoint y, firing "Hips too high"
below `shoulder_y - 0.1`, else "Hips too low" above `shoulder_y + 0.1`
(at most one of the two, then the scan stops). -/
def plankHipsHit (f : PoseFrame) : Option String :=
  match lmGet 11 f.landmarks, lmGet 12 f.landmarks,
        lmGet 23 f.landmarks, lmGet 24 f.landmarks with
  | some s11, some s12, some h23, some h24 =>
    let sy := (s11.y + s12.y) / 2
    let hy := (h23.y + h24.y) / 2
    if hy < sy - 1 / 10 then some ("Hips too high")
    else if hy > sy + 1 / 10 then some ("Hips too low")
    else none
  | _, _, _, _ => none

/-- `_check_plank_hips`. -/
def check_plank_hips (pd : List PoseFrame) : List String :=
  firstHit plankHipsHit pd

/-- `_check_plank_core` (placeholder check). -/
def check_plank_core (pd : List PoseFrame) : List String :=
  lenGatedIssue ("Core not engaged") pd

/-- `_analyze_plank`: length gate at 10 frames, checks with penalties
20 (alignment), 15 (hips), 10 (core). -/
def analyze_plank (pd : List PoseFrame) (ts : String) : AnalysisResult :=
  if pd.length < 10 then mkError ("Video too short for plank analysis") ts
  else
    let a := check_plank_alignment pd
    let b := check_plank_hips pd
    let c := check_plank_core pd
    let issues := a ++ b ++ c
    let raw : ℤ := 100 - 20 * a.length - 15 * b.length - 10 * c.length
    let recs :=
      (if issues.contains ("Body not straight") then
        [("Keep your body in a straight line from head to heels")] else []) ++
      (if issues.contains ("Hips too high") then
        [("Lower your hips to maintain proper plank position")] else []) ++
      (if issues.contains ("Hips too low") then
        [("Raise your hips to maintain proper plank position")] else []) ++
      (if issues.contains ("Core not engaged") then
        [("Engage your core muscles throughout the hold")] else [])
    let recs2 := if recs = [] then [("Perfect plank form! Great core stability")] else recs
    mkScored ("plank") ts (meanVis pd) pd.length issues recs2 raw

/-- `_check_deadlift_back` (placeholder check). -/
def check_deadlift_back (pd : List PoseFrame) : List String :=
  lenGatedIssue ("Back not straight") pd

/-- `_check_deadlift_hip_hinge` (placeholder check). -/
def check_deadlift_hip_hinge (pd : List PoseFrame) : List String :=
  lenGatedIssue ("Poor hip hinge") pd

/-- `_check_deadlift_bar_path` (placeholder check). -/
def check_deadlift_bar_path (pd : List PoseFrame) : List String :=
  lenGatedIssue ("Bar too far from body") pd

/-- `_analyze_deadlift`: length gate at 10 frames, placeholder checks with
penalties 20 (back), 15 (hip hinge), 15 (bar path). -/
def analyze_deadlift (pd : List PoseFrame) (ts : String) : AnalysisResult :=
  if pd.length < 10 then mkError ("Video too short for deadlift analysis") ts
  else
    let a := check_deadlift_back pd
    let b := check_deadlift_hip_hinge pd
    let c := check_deadlift_bar_path pd
    let issues := a ++ b ++ c
    let raw : ℤ := 100 - 20 * a.length - 15 * b.length - 15 * c.length
    let recs :=
      (if issues.contains ("Back not straight") then
        [("Keep your back straight and neutral throughout")] else []) ++
      (if issues.contains ("Poor hip hinge") then
        [("Hinge at your hips, not your lower back")] else []) ++
      (if issues.contains ("Bar too far from body") then
        [("Keep the bar close to your body")] else []) ++
      (if issues.contains ("Rounding back") then
        [("Maintain a neutral spine position")] else [])
    let recs2 := if recs = [] then [("Excellent deadlift form!")] else recs
    mkScored ("deadlift") ts (meanVis pd) pd.length issues recs2 raw

/-- `_check_pullup_rom` (placeholder check). -/
def check_pullup_rom (pd : List PoseFrame) : List String :=
  lenGatedIssue ("Incomplete range of motion") pd

/-- `_check_pullup_shoulders` (placeholder check). -/
def check_pullup_shoulders (pd : List PoseFrame) : List String :=
  lenGatedIssue ("Shoulders not engaged") pd

/-- `_check_pullup_swing` (placeholder check). -/
def check_pullup_swing (pd : List PoseFrame) : List String :=
  lenGatedIssue ("Excessive body swing") pd

/-- `_analyze_pullup`: length gate at 10 frames, placeholder checks with
penalties 20 (range of motion), 15 (shoulders), 10 (swing). -/
def analyze_pullup (pd : List PoseFrame) (ts : String) : AnalysisResult :=
  if pd.length < 10 then mkError ("Video too short for pullup analysis") ts
  else
    let a := check_pullup_rom pd
    let b := check_pullup_shoulders pd
    let c := check_pullup_swing pd
    let issues := a ++ b ++ c
    let raw : ℤ := 100 - 20 * a.length - 15 * b.length - 10 * c.length
    let recs :=
      (if issues.contains ("Incomplete range of motion") then
        [("Pull up until your chin clears the bar")] else []) ++
      (if issues.contains ("Shoulders not engaged") then
        [("Engage your shoulder blades at the start")] else []) ++
      (if issues.contains ("Excessive body swing") then
        [("Control your body movement, avoid swinging")] else []) ++
      (if issues.contains ("Not going full down") then
        [("Lower yourself completely between reps")] else [])
    let recs2 := if recs = [] then [("Great pullup form! Strong upper body")] else recs
    mkScored ("pullup") ts (meanVis pd) pd.length issues recs2 raw

/-- `_check_burpee_squat` (placeholder check). -/
def check_burpee_squat (pd : List PoseFrame) : List String :=
  lenGatedIssue ("Poor squat form") pd

/-- `_check_burpee_pushup` (placeholder check). -/
def check_burpee_pushup (pd : List PoseFrame) : List String :=
  lenGatedIssue ("Incomplete pushup") pd

/-- `_check_burpee_jump` (placeholder check). -/
def check_burpee_jump (pd : List PoseFrame) : List String :=
  lenGatedIssue ("No jump") pd

/-- `_analyze_burpee`: length gate at 10 frames, placeholder checks with
penalties 15 (squat), 15 (pushup), 10 (jump). -/
def analyze_burpee (pd : List PoseFrame) (ts : String) : AnalysisResult :=
  if pd.length < 10 then mkError ("Video too short for burpee analysis") ts
  else
    let a := check_burpee_squat pd
    let b := check_burpee_pushup pd
    let c := check_burpee_jump pd
    let issues := a ++ b ++ c
    let raw : ℤ := 100 - 15 * a.length - 15 * b.length - 10 * c.length
    let recs :=
      (if issues.contains ("Poor squat form") then
        [("Maintain proper squat form during the movement")] else []) ++
      (if issues.contains ("Incomplete pushup") then
        [("Perform a full pushup with chest to ground")] else []) ++
      (if issues.contains ("No jump") then
        [("Include a full jump at the end")] else []) ++
      (if issues.contains ("Rushed movement") then
        [("Control each phase of the movement")] else [])
    let recs2 := if recs = [] then [("Excellent burpee form! Great conditioning")] else recs
    mkScored ("burpee") ts (meanVis pd) pd.length issues recs2 raw

/-- `_check_lunge_knees` (placeholder check). -/
def check_lunge_knees (pd : List PoseFrame) : List String :=
  lenGatedIssue ("Front knee too far forward") pd

/-- `_check_lunge_depth` (placeholder check). -/
def check_lunge_depth (pd : List PoseFrame) : List String :=
  lenGatedIssue ("Insufficient depth") pd

/-- `_check_lunge_balance` (placeholder check). -/
def check_lunge_balance (pd : List PoseFrame) : List String :=
  lenGatedIssue ("Poor balance") pd

/-- `_analyze_lunge`: length gate at 10 frames, placeholder checks with
penalties 20 (knees), 15 (depth), 10 (balance). -/
def analyze_lunge (pd : List PoseFrame) (ts : String) : AnalysisResult :=
  if pd.length < 10 then mkError ("Video too short for lunge analysis") ts
  else
    let a := check_lunge_knees pd
    let b := check_lunge_depth pd
    let c := check_lunge_balance pd
    let issues := a ++ b ++ c
    let raw : ℤ := 100 - 20 * a.length - 15 * b.length - 10 * c.length
    let recs :=
      (if issues.contains ("Front knee too far forward") then
        [("Keep your front knee behind your toes")] else []) ++
      (if issues.contains ("Insufficient depth") then
        [("Lower until your back knee nearly touches the ground")] else []) ++
      (if issues.contains ("Poor balance") then
        [("Maintain balance throughout the movement")] else []) ++
      (if issues.contains ("Knees touching") then
        [("Keep your knees aligned with your feet")] else [])
    let recs2 := if recs = [] then [("Great lunge form! Excellent balance")] else recs
    mkScored ("lunge") ts (meanVis pd) pd.length issues recs2 raw

/-- `_check_mountain_climber_plank` (placeholder check). -/
def check_mountain_climber_plank (pd : List PoseFrame) : List String :=
  lenGatedIssue ("Poor plank position") pd

/-- `_check_mountain_climber_knees` (placeholder check). -/
def check_mountain_climber_knees (pd : List PoseFrame) : List String :=
  lenGatedIssue ("Insufficient knee drive") pd

/-- `_check_mountain_climber_core` (placeholder check). -/
def check_mountain_climber_core (pd : List PoseFrame) : List String :=
  lenGatedIssue ("Core not engaged") pd

/-- `_analyze_mountain_climber`: length gate at 10 frames, placeholder checks
with penalties 20 (plank), 15 (knee drive), 10 (core). -/
def analyze_mountain_climber (pd : List PoseFrame) (ts : String) : AnalysisResult :=
  if pd.length < 10 then mkError ("Video too short for mountain climber analysis") ts
  else
    let a := check_mountain_climber_plank pd
    let b := check_mountain_climber_knees pd
    let c := check_mountain_climber_core pd
    let issues := a ++ b ++ c
    let raw : ℤ := 100 - 20 * a.length - 15 * b.length - 10 * c.length
    let recs :=
      (if issues.contains ("Poor plank position") then
        [("Maintain a strong plank position throughout")] else []) ++
      (if issues.contains ("Insufficient knee drive") then
        [("Drive your knees toward your chest")] else []) ++
      (if issues.contains ("Core not engaged") then
        [("Keep your core engaged throughout")] else []) ++
      (if issues.contains ("Hips moving") then
        [("Keep your hips stable and level")] else [])
    let recs2 := if recs = [] then [("Excellent mountain climber form!")] else recs
    mkScored ("mountain_climber") ts (meanVis pd) pd.length issues recs2 raw

/-- `_check_jumping_jack_arms` (placeholder check). -/
def check_jumping_jack_arms (pd : List PoseFrame) : List String :=
  lenGatedIssue ("Arms not fully extended") pd

/-- `_check_jumping_jack_legs` (placeholder check). -/
def check_jumping_jack_legs (pd : List PoseFrame) : List String :=
  lenGatedIssue ("Legs not wide enough") pd

/-- `_check_jumping_jack_coordination` (placeholder check). -/
def check_jumping_jack_coordination (pd : List PoseFrame) : List String :=
  lenGatedIssue ("Poor coordination") pd

/-- `_analyze_jumping_jack`: length gate at 10 frames, placeholder checks with
penalties 15 (arms), 15 (legs), 10 (coordination). -/
def analyze_jumping_jack (pd : List PoseFrame) (ts : String) : AnalysisResult :=
  if pd.length < 10 then mkError ("Video too short for jumping jack analysis") ts
  else
    let a := check_jumping_jack_arms pd
    let b := check_jumping_jack_legs pd
    let c := check_jumping_jack_coordination pd
    let issues := a ++ b ++ c
    let raw : ℤ := 100 - 15 * a.length - 15 * b.length - 10 * c.length
    let recs :=
      (if issues.contains ("Arms not fully extended") then
        [("Fully extend your arms overhead")] else []) ++
      (if issues.contains ("Legs not wide enough") then
        [("Jump your legs wide apart")] else []) ++
      (if issues.contains ("Poor coordination") then
        [("Coordinate arm and leg movements")] else []) ++
      (if issues.contains ("Landing too hard") then
        [("Land softly on the balls of your feet")] else [])
    let recs2 := if recs = [] then [("Perfect jumping jack form!")] else recs
    mkScored ("jumping_jack") ts (meanVis pd) pd.length issues recs2 raw

/-- `_analyze_generic`: for unrecognized exercise labels; `form_score` is
Python `int(visibility_score * 100)` (truncation toward zero), and the rating
is Good above mean visibility 0.7, Fair otherwise. -/
def analyze_generic (pd : List PoseFrame) (ex ts : String) : AnalysisResult :=
  let v := meanVis pd
  { exercise_type := ex
    analysis_timestamp := ts
    confidence_score := v
    form_rating := if v > 7 / 10 then ("Good") else ("Fair")
    form_score := pyInt (v * 100)
    total_frames_analyzed := pd.length
    issues_detected := [("Analysis not yet implemented for this exercise")]
    recommendations := [("This exercise type will be fully analyzed in a future update")]
    areas_for_improvement := [("Exercise-specific analysis coming soon")] }

/-- The fixed exercise catalogue matched by `_analyze_exercise` (already in the
lowercased spelling the dispatcher compares against). -/
def catalogue : List String :=
  ["pushup", "squat", "deadlift", "bench_press", "pullup",
   "plank", "burpee", "lunge", "mountain_climber", "jumping_jack"]

/-- Python `str.lower()` on the exercise label (per-character lowercasing; the
labels involved are ASCII, where this agrees with Python's definition). -/
def strLower (s : String) : String :=
  ⟨s.data.map Char.toLower⟩

/-- `_analyze_exercise`: lowercases the label and dispatches on the catalogue,
defaulting to the generic evaluator (which receives the original label). -/
def analyze_exercise (pd : List PoseFrame) (ex ts : String) : AnalysisResult :=
  if strLower ex = "pushup" then analyze_pushup pd ts
  else if strLower ex = "squat" then analyze_squat pd ts
  else if strLower ex = "deadlift" then analyze_deadlift pd ts
  else if strLower ex = "bench_press" then analyze_bench_press pd ts
  else if strLower ex = "pullup" then analyze_pullup pd ts
  else if strLower ex = "plank" then analyze_plank pd ts
  else if strLower ex = "burpee" then analyze_burpee pd ts
  else if strLower ex = "lunge" then analyze_lunge pd ts
  else if strLower ex = "mountain_climber" then analyze_mountain_climber pd ts
  else if strLower ex = "jumping_jack" then analyze_jumping_jack pd ts
  else analyze_generic pd ex ts

/-- Post-extraction part of `analyze_video`: once `pose_data` has been
collected, an empty collection is recovered locally into the error result
("No pose detected in video"); otherwise control passes to the dispatcher. -/
def analyze_video_poses (pd : List PoseFrame) (ex ts : String) : AnalysisResult :=
  if pd = [] then mkError ("No pose detected in video") ts
  else analyze_exercise pd ex ts

/-- Round half to even on exact rationals, used to model the rounding of
Python's `format(q, '.2f')` after scaling by 100, and the `round` function
named by the specification for the generic score. -/
def roundHalfEven (q : ℚ) : ℤ :=
  let f := Int.floor q
  let r := q - f
  if r < 1 / 2 then f
  else if 1 / 2 < r then f + 1
  else if f % 2 = 0 then f else f + 1

/-- Two-decimal rendering `{:.2f}` of the confidence score in the feedback
text of `analyze_video_with_mediapipe`. -/
def format2 (q : ℚ) : String :=
  let n := roundHalfEven (q * 100)
  let a := n.natAbs
  (if n < 0 then "-" else "") ++ toString (a / 100) ++ "." ++
    (if a % 100 < 10 then "0" else "") ++ toString (a % 100)

/-- Feedback text built by `analyze_video_with_mediapipe` in
src/backend/routers/video.py from the analysis dict.  Every interpolated field
is one of the dict's entries; the `analysis_timestamp` entry is not used. -/
def feedbackFor (r : AnalysisResult) : String :=
  "\n        Analysis for " ++ r.exercise_type ++ ":\n        \n        Overall Form Rating: "
    ++ r.form_rating
    ++ "\n        Form Score: " ++ toString r.form_score
    ++ "/100\n        Confidence Score: " ++ format2 r.confidence_score
    ++ "\n        Frames Analyzed: " ++ toString r.total_frames_analyzed
    ++ "\n        \n        Recommendations:\n        "
    ++ String.intercalate "\n" (r.recommendations.map (fun s => "- " ++ s))
    ++ "\n        \n        Areas for Improvement:\n        "
    ++ String.intercalate "\n" (r.areas_for_improvement.map (fun s => "- " ++ s))
    ++ "\n        \n        Issues Detected:\n        "
    ++ (if r.issues_detected = [] then "- No major issues detected"
        else String.intercalate "\n" (r.issues_detected.map (fun s => "- " ++ s)))
    ++ "\n        "

/-- `analyze_video_with_mediapipe` (success path): the analysis dict together
with the rendered feedback string. -/
def analyze_video_with_mediapipe (pd : List PoseFrame) (ex ts : String) :
    AnalysisResult × String :=
  let r := analyze_video_poses pd ex ts
  (r, feedbackFor r)

/-- Projection of an `AnalysisResult` onto every field except
`analysis_timestamp`, used to state which fields are clock-independent. -/
def stripTs (r : AnalysisResult) :
    String × ℚ × String × ℤ × ℕ × List String × List String × List String :=
  (r.exercise_type, r.confidence_score, r.form_rating, r.form_score,
   r.total_frames_analyzed, r.issues_detected, r.recommendations,
   r.areas_for_improvement)

/-- Character-list test: the first list occurs at the head of the second. -/
def listHasPref : List Char → List Char → Bool
  | [], _ => true
  | _ :: _, [] => false
  | a :: as, b :: bs => a = b && listHasPref as bs

/-- Character-list test: the first list occurs contiguously in the second. -/
def listHasSub (pat : List Char) : List Char → Bool
  | [] => listHasPref pat []
  | c :: rest => listHasPref pat (c :: rest) || listHasSub pat rest

/-- String test: `pat` occurs as a contiguous substring of `s`. -/
def strHasSub (pat s : String) : Bool :=
  listHasSub pat.toList s.toList

/-- Human-readable exercise name as spelled inside each too-short error
message (underscores of the catalogue key become spaces). -/
def displayName (ex : String) : String :=
  if ex = "bench_press" then ("bench press")
  else if ex = "mountain_climber" then ("mountain climber")
  else if ex = "jumping_jack" then ("jumping jack")
  else ex

/-- The literal too-short diagnostic message of each exercise evaluator. -/
def shortMsg (ex : String) : String :=
  "Video too short for " ++ displayName ex ++ " analysis"

/-- Frame with no detected landmarks and the given aggregate visibility. -/
def trivFrame (v : ℚ) : PoseFrame :=
  { frame := 0, landmarks := [], visibility := v }

/-- Concrete sequences of frames used to instantiate the theorems. -/
def pd8 : List PoseFrame := List.replicate 8 (trivFrame 1)

/-- Ten trivial frames. -/
def pd10 : List PoseFrame := List.replicate 10 (trivFrame 1)

/-- Eleven trivial frames. -/
def pd11 : List PoseFrame := List.replicate 11 (trivFrame 1)

/-- Single frame whose visibility 0.855 makes `100 * mean_visibility = 85.5`,
separating truncation from rounding. -/
def pdHalf : List PoseFrame := [trivFrame (171 / 200)]

/-- Single frame of mean visibility 0.9 (the spec's scenario 6). -/
def pdNine : List PoseFrame := [trivFrame (9 / 10)]

/-- Pushup frame of the spec's scenario 2 geometry, adapted to exact rational
coordinates: left shoulder (0, 1/2), right shoulder (1, 1/2), left hip
(0, 3/2), right hip (1, 3/2), left knee (1, 5/2), right knee (2, 5/2), wrists
(0, 0) and (1, 0).  The shoulder-to-hip and hip-to-knee vectors are (0, 1) and
(1, 1), a 45-degree bend (the scenario's 30-degree bend likewise exceeds the
15-degree tolerance, but no rational coordinates realize exactly 30 degrees);
wrist width equals shoulder width (ratio 1.0), and the shoulder-midpoint y is
1/2 in every frame. -/
def bentFrame : PoseFrame :=
  { frame := 0
    landmarks :=
      [(11, { x := 0, y := 1 / 2, z := 0, visibility := 1 }),
       (12, { x := 1, y := 1 / 2, z := 0, visibility := 1 }),
       (23, { x := 0, y := 3 / 2, z := 0, visibility := 1 }),
       (24, { x := 1, y := 3 / 2, z := 0, visibility := 1 }),
       (25, { x := 1, y := 5 / 2, z := 0, visibility := 1 }),
       (26, { x := 2, y := 5 / 2, z := 0, visibility := 1 }),
       (15, { x := 0, y := 0, z := 0, visibility := 1 }),
       (16, { x := 1, y := 0, z := 0, visibility := 1 })]
    visibility := 1 }

/-- Fifteen copies of `bentFrame`: the scenario-2 pushup sequence. -/
def pdBent : List PoseFrame := List.replicate 15 bentFrame

/-! Helper lemmas about the embedded operations. -/

lemma firstHit_length_le (p : PoseFrame → Option String) (l : List PoseFrame) :
    (firstHit p l).length ≤ 1 := by
  induction l with
  | nil => simp [firstHit]
  | cons f rest ih =>
    rw [firstHit]
    cases hp : p f <;> simp [ih]

lemma firstHit_all_some (p : PoseFrame → Option String) (s : String)
    (l : List PoseFrame) (hne : l ≠ []) (hall : ∀ f ∈ l, p f = some s) :
    firstHit p l = [s] := by
  cases l with
  | nil => exact absurd rfl hne
  | cons f rest =>
    have hf := hall f (List.mem_cons_self f rest)
    rw [firstHit, hf]

lemma firstHit_all_none (p : PoseFrame → Option String)
    (l : List PoseFrame) (hall : ∀ f ∈ l, p f = none) :
    firstHit p l = [] := by
  induction l with
  | nil => rfl
  | cons f rest ih =>
    have hf := hall f (List.mem_cons_self f rest)
    rw [firstHit, hf]
    exact ih fun g hg => hall g (List.mem_cons_of_mem f hg)

lemma check_pushup_depth_length_le (pd : List PoseFrame) :
    (check_pushup_depth pd).length ≤ 1 := by
  rw [check_pushup_depth]
  split
  · simp
  · split
    · split <;> simp
    · simp

lemma check_squat_depth_length_le (pd : List PoseFrame) :
    (check_squat_depth pd).length ≤ 1 := by
  rw [check_squat_depth]
  split
  · simp
  · split
    · split <;> simp
    · simp

lemma lenGatedIssue_length_le (lab : String) (pd : List PoseFrame) :
    (lenGatedIssue lab pd).length ≤ 1 := by
  rw [lenGatedIssue]
  split <;> simp

lemma ratingOf_ne_error (s : ℤ) : ratingOf s ≠ "Error" := by
  rw [ratingOf]
  split_ifs <;> decide

lemma ratingRank_ratingOf (s : ℤ) :
    ratingRank (ratingOf s) =
      if 90 ≤ s then 3 else if 75 ≤ s then 2 else if 60 ≤ s then 1 else 0 := by
  rw [ratingOf]
  split_ifs <;> simp [ratingRank]

lemma ratingOf_mono {s t : ℤ} (h : s ≤ t) :
    ratingRank (ratingOf s) ≤ ratingRank (ratingOf t) := by
  rw [ratingRank_ratingOf, ratingRank_ratingOf]
  split_ifs <;> omega

lemma mkScored_ok (name ts : String) (conf : ℚ) (n : ℕ) (issues recs : List String)
    (raw : ℤ) (hraw : 50 ≤ raw) (hlen : issues.length ≤ 3) :
    (mkScored name ts conf n issues recs raw).form_rating
        = ratingOf (mkScored name ts conf n issues recs raw).form_score ∧
    (mkScored name ts conf n issues recs raw).form_rating ≠ "Error" ∧
    (mkScored name ts conf n issues recs raw).issues_detected.length ≤ 3 ∧
    50 ≤ (mkScored name ts conf n issues recs raw).form_score ∧
    (mkScored name ts conf n issues recs raw).total_frames_analyzed = n ∧
    (mkScored name ts conf n issues recs raw).exercise_type = name := by
  have hmax : max 0 raw = raw := max_eq_right (by omega)
  simp only [mkScored, hmax]
  repeat' apply And.intro
  all_goals first | rfl | trivial | exact ratingOf_ne_error _

lemma meanVis_nonneg (pd : List PoseFrame) (h : ∀ f ∈ pd, 0 ≤ f.visibility) :
    0 ≤ meanVis pd := by
  rw [meanVis]
  apply div_nonneg
  · apply List.sum_nonneg
    intro x hx
    simp only [List.mem_map] at hx
    obtain ⟨f, hf, rfl⟩ := hx
    exact h f hf
  · positivity

lemma pyInt_nonneg (q : ℚ) (h : 0 ≤ q) : 0 ≤ pyInt q := by
  rw [pyInt, if_neg (not_lt.mpr h)]
  exact Int.floor_nonneg.mpr h

lemma analyze_pushup_ok (pd : List PoseFrame) (ts : String) (h : 10 ≤ pd.length) :
    (analyze_pushup pd ts).form_rating = ratingOf (analyze_pushup pd ts).form_score ∧
    (analyze_pushup pd ts).form_rating ≠ "Error" ∧
    (analyze_pushup pd ts).issues_detected.length ≤ 3 ∧
    50 ≤ (analyze_pushup pd ts).form_score ∧
    (analyze_pushup pd ts).total_frames_analyzed = pd.length ∧
    (analyze_pushup pd ts).exercise_type = "pushup" := by
  have ha : (check_body_alignment pd).length ≤ 1 := firstHit_length_le _ pd
  have hb : (check_pushup_arms pd).length ≤ 1 := firstHit_length_le _ pd
  have hc : (check_pushup_depth pd).length ≤ 1 := check_pushup_depth_length_le pd
  rw [analyze_pushup, if_neg (by omega)]
  simp only []
  exact mkScored_ok _ _ _ _ _ _ _ (by omega)
    (by simp only [List.length_append]; omega)

lemma analyze_pushup_score_nonneg (pd : List PoseFrame) (ts : String) :
    0 ≤ (analyze_pushup pd ts).form_score := by
  rw [analyze_pushup]
  split
  · simp [mkError]
  · simp only [mkScored]
    exact le_max_left _ _

lemma dispatch_pushup (pd : List PoseFrame) (ts : String) :
    analyze_exercise pd ("pushup") ts = analyze_pushup pd ts := rfl

lemma analyze_squat_ok (pd : List PoseFrame) (ts : String) (h : 10 ≤ pd.length) :
    (analyze_squat pd ts).form_rating = ratingOf (analyze_squat pd ts).form_score ∧
    (analyze_squat pd ts).form_rating ≠ "Error" ∧
    (analyze_squat pd ts).issues_detected.length ≤ 3 ∧
    50 ≤ (analyze_squat pd ts).form_score ∧
    (analyze_squat pd ts).total_frames_analyzed = pd.length ∧
    (analyze_squat pd ts).exercise_type = "squat" := by
  have ha : (check_squat_knees pd).length ≤ 1 := firstHit_length_le _ pd
  have hb : (check_squat_depth pd).length ≤ 1 := check_squat_depth_length_le pd
  have hc : (check_squat_back pd).length ≤ 1 := firstHit_length_le _ pd
  rw [analyze_squat, if_neg (by omega)]
  simp only []
  exact mkScored_ok _ _ _ _ _ _ _ (by omega)
    (by simp only [List.length_append]; omega)

lemma analyze_squat_score_nonneg (pd : List PoseFrame) (ts : String) :
    0 ≤ (analyze_squat pd ts).form_score := by
  rw [analyze_squat]
  split
  · simp [mkError]
  · simp only [mkScored]
    exact le_max_left _ _

lemma dispatch_squat (pd : List PoseFrame) (ts : String) :
    analyze_exercise pd ("squat") ts = analyze_squat pd ts := rfl

lemma analyze_deadlift_ok (pd : List PoseFrame) (ts : String) (h : 10 ≤ pd.length) :
    (analyze_deadlift pd ts).form_rating = ratingOf (analyze_deadlift pd ts).form_score ∧
    (analyze_deadlift pd ts).form_rating ≠ "Error" ∧
    (analyze_deadlift pd ts).issues_detected.length ≤ 3 ∧
    50 ≤ (analyze_deadlift pd ts).form_score ∧
    (analyze_deadlift pd ts).total_frames_analyzed = pd.length ∧
    (analyze_deadlift pd ts).exercise_type = "deadlift" := by
  have ha : (check_deadlift_back pd).length ≤ 1 := lenGatedIssue_length_le _ pd
  have hb : (check_deadlift_hip_hinge pd).length ≤ 1 := lenGatedIssue_length_le _ pd
  have hc : (check_deadlift_bar_path pd).length ≤ 1 := lenGatedIssue_length_le _ pd
  rw [analyze_deadlift, if_neg (by omega)]
  simp only []
  exact mkScored_ok _ _ _ _ _ _ _ (by omega)
    (by simp only [List.length_append]; omega)

lemma analyze_deadlift_score_nonneg (pd : List PoseFrame) (ts : String) :
    0 ≤ (analyze_deadlift pd ts).form_score := by
  rw [analyze_deadlift]
  split
  · simp [mkError]
  · simp only [mkScored]
    exact le_max_left _ _

lemma dispatch_deadlift (pd : List PoseFrame) (ts : String) :
    analyze_exercise pd ("deadlift") ts = analyze_deadlift pd ts := rfl

lemma analyze_bench_press_ok (pd : List PoseFrame) (ts : String) (h : 10 ≤ pd.length) :
    (analyze_bench_press pd ts).form_rating = ratingOf (analyze_bench_press pd ts).form_score ∧
    (analyze_bench_press pd ts).form_rating ≠ "Error" ∧
    (analyze_bench_press pd ts).issues_detected.length ≤ 3 ∧
    50 ≤ (analyze_bench_press pd ts).form_score ∧
    (analyze_bench_press pd ts).total_frames_analyzed = pd.length ∧
    (analyze_bench_press pd ts).exercise_type = "bench_press" := by
  have ha : (check_bench_press_bar_path pd).length ≤ 1 := lenGatedIssue_length_le _ pd
  have hb : (check_bench_press_shoulders pd).length ≤ 1 := lenGatedIssue_length_le _ pd
  have hc : (check_bench_press_grip pd).length ≤ 1 := lenGatedIssue_length_le _ pd
  rw [analyze_bench_press, if_neg (by omega)]
  simp only []
  exact mkScored_ok _ _ _ _ _ _ _ (by omega)
    (by simp only [List.length_append]; omega)

lemma analyze_bench_press_score_nonneg (pd : List PoseFrame) (ts : String) :
    0 ≤ (analyze_bench_press pd ts).form_score := by
  rw [analyze_bench_press]
  split
  · simp [mkError]
  · simp only [mkScored]
    exact le_max_left _ _

lemma dispatch_bench_press (pd : List PoseFrame) (ts : String) :
    analyze_exercise pd ("bench_press") ts = analyze_bench_press pd ts := rfl

lemma analyze_pullup_ok (pd : List PoseFrame) (ts : String) (h : 10 ≤ pd.length) :
    (analyze_pullup pd ts).form_rating = ratingOf (analyze_pullup pd ts).form_score ∧
    (analyze_pullup pd ts).form_rating ≠ "Error" ∧
    (analyze_pullup pd ts).issues_detected.length ≤ 3 ∧
    50 ≤ (analyze_pullup pd ts).form_score ∧
    (analyze_pullup pd ts).total_frames_analyzed = pd.length ∧
    (analyze_pullup pd ts).exercise_type = "pullup" := by
  have ha : (check_pullup_rom pd).length ≤ 1 := lenGatedIssue_length_le _ pd
  have hb : (check_pullup_shoulders pd).length ≤ 1 := lenGatedIssue_length_le _ pd
  have hc : (check_pullup_swing pd).length ≤ 1 := lenGatedIssue_length_le _ pd
  rw [analyze_pullup, if_neg (by omega)]
  simp only []
  exact mkScored_ok _ _ _ _ _ _ _ (by omega)
    (by simp only [List.length_append]; omega)

lemma analyze_pullup_score_nonneg (pd : List PoseFrame) (ts : String) :
    0 ≤ (analyze_pullup pd ts).form_score := by
  rw [analyze_pullup]
  split
  · simp [mkError]
  · simp only [mkScored]
    exact le_max_left _ _

lemma dispatch_pullup (pd : List PoseFrame) (ts : String) :
    analyze_exercise pd ("pullup") ts = analyze_pullup pd ts := rfl

lemma analyze_plank_ok (pd : List PoseFrame) (ts : String) (h : 10 ≤ pd.length) :
    (analyze_plank pd ts).form_rating = ratingOf (analyze_plank pd ts).form_score ∧
    (analyze_plank pd ts).form_rating ≠ "Error" ∧
    (analyze_plank pd ts).issues_detected.length ≤ 3 ∧
    50 ≤ (analyze_plank pd ts).form_score ∧
    (analyze_plank pd ts).total_frames_analyzed = pd.length ∧
    (analyze_plank pd ts).exercise_type = "plank" := by
  have ha : (check_plank_alignment pd).length ≤ 1 := firstHit_length_le _ pd
  have hb : (check_plank_hips pd).length ≤ 1 := firstHit_length_le _ pd
  have hc : (check_plank_core pd).length ≤ 1 := lenGatedIssue_length_le _ pd
  rw [analyze_plank, if_neg (by omega)]
  simp only []
  exact mkScored_ok _ _ _ _ _ _ _ (by omega)
    (by simp only [List.length_append]; omega)

lemma analyze_plank_score_nonneg (pd : List PoseFrame) (ts : String) :
    0 ≤ (analyze_plank pd ts).form_score := by
  rw [analyze_plank]
  split
  · simp [mkError]
  · simp only [mkScored]
    exact le_max_left _ _

lemma dispatch_plank (pd : List PoseFrame) (ts : String) :
    analyze_exercise pd ("plank") ts = analyze_plank pd ts := rfl

lemma analyze_burpee_ok (pd : List PoseFrame) (ts : String) (h : 10 ≤ pd.length) :
    (analyze_burpee pd ts).form_rating = ratingOf (analyze_burpee pd ts).form_score ∧
    (analyze_burpee pd ts).form_rating ≠ "Error" ∧
    (analyze_burpee pd ts).issues_detected.length ≤ 3 ∧
    50 ≤ (analyze_burpee pd ts).form_score ∧
    (analyze_burpee pd ts).total_frames_analyzed = pd.length ∧
    (analyze_burpee pd ts).exercise_type = "burpee" := by
  have ha : (check_burpee_squat pd).length ≤ 1 := lenGatedIssue_length_le _ pd
  have hb : (check_burpee_pushup pd).length ≤ 1 := lenGatedIssue_length_le _ pd
  have hc : (check_burpee_jump pd).length ≤ 1 := lenGatedIssue_length_le _ pd
  rw [analyze_burpee, if_neg (by omega)]
  simp only []
  exact mkScored_ok _ _ _ _ _ _ _ (by omega)
    (by simp only [List.length_append]; omega)

lemma analyze_burpee_score_nonneg (pd : List PoseFrame) (ts : String) :
    0 ≤ (analyze_burpee pd ts).form_score := by
  rw [analyze_burpee]
  split
  · simp [mkError]
  · simp only [mkScored]
    exact le_max_left _ _

lemma dispatch_burpee (pd : List PoseFrame) (ts : String) :
    analyze_exercise pd ("burpee") ts = analyze_burpee pd ts := rfl

lemma analyze_lunge_ok (pd : List PoseFrame) (ts : String) (h : 10 ≤ pd.length) :
    (analyze_lunge pd ts).form_rating = ratingOf (analyze_lunge pd ts).form_score ∧
    (analyze_lunge pd ts).form_rating ≠ "Error" ∧
    (analyze_lunge pd ts).issues_detected.length ≤ 3 ∧
    50 ≤ (analyze_lunge pd ts).form_score ∧
    (analyze_lunge pd ts).total_frames_analyzed = pd.length ∧
    (analyze_lunge pd ts).exercise_type = "lunge" := by
  have ha : (check_lunge_knees pd).length ≤ 1 := lenGatedIssue_length_le _ pd
  have hb : (check_lunge_depth pd).length ≤ 1 := lenGatedIssue_length_le _ pd
  have hc : (check_lunge_balance pd).length ≤ 1 := lenGatedIssue_length_le _ pd
  rw [analyze_lunge, if_neg (by omega)]
  simp only []
  exact mkScored_ok _ _ _ _ _ _ _ (by omega)
    (by simp only [List.length_append]; omega)

lemma analyze_lunge_score_nonneg (pd : List PoseFrame) (ts : String) :
    0 ≤ (analyze_lunge pd ts).form_score := by
  rw [analyze_lunge]
  split
  · simp [mkError]
  · simp only [mkScored]
    exact le_max_left _ _

lemma dispatch_lunge (pd : List PoseFrame) (ts : String) :
    analyze_exercise pd ("lunge") ts = analyze_lunge pd ts := rfl

lemma analyze_mountain_climber_ok (pd : List PoseFrame) (ts : String) (h : 10 ≤ pd.length) :
    (analyze_mountain_climber pd ts).form_rating = ratingOf (analyze_mountain_climber pd ts).form_score ∧
    (analyze_mountain_climber pd ts).form_rating ≠ "Error" ∧
    (analyze_mountain_climber pd ts).issues_detected.length ≤ 3 ∧
    50 ≤ (analyze_mountain_climber pd ts).form_score ∧
    (analyze_mountain_climber pd ts).total_frames_analyzed = pd.length ∧
    (analyze_mountain_climber pd ts).exercise_type = "mountain_climber" := by
  have ha : (check_mountain_climber_plank pd).length ≤ 1 := lenGatedIssue_length_le _ pd
  have hb : (check_mountain_climber_knees pd).length ≤ 1 := lenGatedIssue_length_le _ pd
  have hc : (check_mountain_climber_core pd).length ≤ 1 := lenGatedIssue_length_le _ pd
  rw [analyze_mountain_climber, if_neg (by omega)]
  simp only []
  exact mkScored_ok _ _ _ _ _ _ _ (by omega)
    (by simp only [List.length_append]; omega)

lemma analyze_mountain_climber_score_nonneg (pd : List PoseFrame) (ts : String) :
    0 ≤ (analyze_mountain_climber pd ts).form_score := by
  rw [analyze_mountain_climber]
  split
  · simp [mkError]
  · simp only [mkScored]
    exact le_max_left _ _

lemma dispatch_mountain_climber (pd : List PoseFrame) (ts : String) :
    analyze_exercise pd ("mountain_climber") ts = analyze_mountain_climber pd ts := rfl

lemma analyze_jumping_jack_ok (pd : List PoseFrame) (ts : String) (h : 10 ≤ pd.length) :
    (analyze_jumping_jack pd ts).form_rating = ratingOf (analyze_jumping_jack pd ts).form_score ∧
    (analyze_jumping_jack pd ts).form_rating ≠ "Error" ∧
    (analyze_jumping_jack pd ts).issues_detected.length ≤ 3 ∧
    50 ≤ (analyze_jumping_jack pd ts).form_score ∧
    (analyze_jumping_jack pd ts).total_frames_analyzed = pd.length ∧
    (analyze_jumping_jack pd ts).exercise_type = "jumping_jack" := by
  have ha : (check_jumping_jack_arms pd).length ≤ 1 := lenGatedIssue_length_le _ pd
  have hb : (check_jumping_jack_legs pd).length ≤ 1 := lenGatedIssue_length_le _ pd
  have hc : (check_jumping_jack_coordination pd).length ≤ 1 := lenGatedIssue_length_le _ pd
  rw [analyze_jumping_jack, if_neg (by omega)]
  simp only []
  exact mkScored_ok _ _ _ _ _ _ _ (by omega)
    (by simp only [List.length_append]; omega)

lemma analyze_jumping_jack_score_nonneg (pd : List PoseFrame) (ts : String) :
    0 ≤ (analyze_jumping_jack pd ts).form_score := by
  rw [analyze_jumping_jack]
  split
  · simp [mkError]
  · simp only [mkScored]
    exact le_max_left _ _

lemma dispatch_jumping_jack (pd : List PoseFrame) (ts : String) :
    analyze_exercise pd ("jumping_jack") ts = analyze_jumping_jack pd ts := rfl

/-- C1: for every catalogue exercise and every pose sequence of at least 10
frames, the returned `form_rating` equals the fixed threshold function of the
returned `form_score` and is never the Error rating; and the threshold
function is non-increasing as the score decreases (rating rank is monotone in
the score).  The rating is deterministic because the evaluator is a pure
function of its inputs. -/
theorem catalogue_rating_thresholds :
    (∀ ex ∈ catalogue, ∀ (pd : List PoseFrame) (ts : String), 10 ≤ pd.length →
      (analyze_exercise pd ex ts).form_rating
          = ratingOf (analyze_exercise pd ex ts).form_score ∧
      (analyze_exercise pd ex ts).form_rating ≠ "Error") ∧
    (∀ s t : ℤ, s ≤ t → ratingRank (ratingOf s) ≤ ratingRank (ratingOf t)) := by
  constructor
  · intro ex hex pd ts h
    fin_cases hex
    · exact ⟨(analyze_pushup_ok pd ts h).1, (analyze_pushup_ok pd ts h).2.1⟩
    · exact ⟨(analyze_squat_ok pd ts h).1, (analyze_squat_ok pd ts h).2.1⟩
    · exact ⟨(analyze_deadlift_ok pd ts h).1, (analyze_deadlift_ok pd ts h).2.1⟩
    · exact ⟨(analyze_bench_press_ok pd ts h).1, (analyze_bench_press_ok pd ts h).2.1⟩
    · exact ⟨(analyze_pullup_ok pd ts h).1, (analyze_pullup_ok pd ts h).2.1⟩
    · exact ⟨(analyze_plank_ok pd ts h).1, (analyze_plank_ok pd ts h).2.1⟩
    · exact ⟨(analyze_burpee_ok pd ts h).1, (analyze_burpee_ok pd ts h).2.1⟩
    · exact ⟨(analyze_lunge_ok pd ts h).1, (analyze_lunge_ok pd ts h).2.1⟩
    · exact ⟨(analyze_mountain_climber_ok pd ts h).1, (analyze_mountain_climber_ok pd ts h).2.1⟩
    · exact ⟨(analyze_jumping_jack_ok pd ts h).1, (analyze_jumping_jack_ok pd ts h).2.1⟩
  · intro s t hst
    exact ratingOf_mono hst

/-- C1 witness: instantiation at the pushup evaluator on ten trivial frames
and at the scores 65 and 92. -/
theorem catalogue_rating_thresholds_witness :
    (analyze_exercise pd10 ("pushup") "t").form_rating
        = ratingOf (analyze_exercise pd10 ("pushup") "t").form_score ∧
    (analyze_exercise pd10 ("pushup") "t").form_rating ≠ "Error" ∧
    ratingRank (ratingOf 65) ≤ ratingRank (ratingOf 92) :=
  ⟨(catalogue_rating_thresholds.1 ("pushup") (by decide) pd10 "t" (by decide)).1,
   (catalogue_rating_thresholds.1 ("pushup") (by decide) pd10 "t" (by decide)).2,
   catalogue_rating_thresholds.2 65 92 (by decide)⟩

set_option maxHeartbeats 2000000 in
/-- C2: for every evaluator reachable from the analysis entry point (the ten
exercise-specific evaluators, the generic evaluator, and the error result) and
every pose sequence whose per-frame visibilities are nonnegative (the data
model guarantees visibilities lie in [0, 1]), the returned `form_score` is a
nonnegative integer.  The specific evaluators clamp with `max(0, score)`; the
generic evaluator truncates `100 * mean_visibility`, nonnegative under the
visibility hypothesis; the error result is 0. -/
theorem form_score_nonneg_all (pd : List PoseFrame) (ex ts : String)
    (h : ∀ f ∈ pd, 0 ≤ f.visibility) :
    0 ≤ (analyze_video_poses pd ex ts).form_score := by
  rw [analyze_video_poses]
  split
  · simp [mkError]
  · rw [analyze_exercise]
    split_ifs
    exacts [analyze_pushup_score_nonneg pd ts, analyze_squat_score_nonneg pd ts,
      analyze_deadlift_score_nonneg pd ts, analyze_bench_press_score_nonneg pd ts,
      analyze_pullup_score_nonneg pd ts, analyze_plank_score_nonneg pd ts,
      analyze_burpee_score_nonneg pd ts, analyze_lunge_score_nonneg pd ts,
      analyze_mountain_climber_score_nonneg pd ts, analyze_jumping_jack_score_nonneg pd ts,
      pyInt_nonneg _ (mul_nonneg (meanVis_nonneg pd h) (by norm_num))]

/-- C2 witness: instantiation at the generic evaluator on one frame of
visibility 0.9. -/
theorem form_score_nonneg_all_witness :
    0 ≤ (analyze_video_poses pdNine ("kettlebell swing") "t").form_score :=
  form_score_nonneg_all pdNine ("kettlebell swing") "t" (by
    intro f hf
    rw [pdNine, List.mem_singleton] at hf
    subst hf
    norm_num [trivFrame])

/-- C3 counterexample: two calls of the analyzer on the identical pose
sequence and label are NOT byte-identical in every field: the
`analysis_timestamp` field holds the wall-clock reading
`datetime.utcnow().isoformat()` of each call (modelled as the `ts` input), so
two calls with distinct clock readings yield different results. -/
theorem analyzer_two_runs_differ :
    analyze_video_poses [] ("pushup") "2024-01-01T00:00:00"
      ≠ analyze_video_poses [] ("pushup") "2024-01-01T00:00:01" := by
  intro hEq
  have h : ("2024-01-01T00:00:00" : String) = "2024-01-01T00:00:01" :=
    congrArg AnalysisResult.analysis_timestamp hEq
  exact absurd h (by decide)

/-- C3 amended: calling the analyzer twice with the identical pose sequence
and exercise label yields results that agree on every field except
`analysis_timestamp`, and byte-identical feedback strings (the feedback text
does not interpolate the timestamp); only the timestamp field depends on the
wall-clock reading. -/
theorem analyzer_deterministic_modulo_timestamp
    (pd : List PoseFrame) (ex t1 t2 : String) :
    stripTs (analyze_video_poses pd ex t1) = stripTs (analyze_video_poses pd ex t2) ∧
    feedbackFor (analyze_video_poses pd ex t1)
      = feedbackFor (analyze_video_poses pd ex t2) := by
  rw [analyze_video_poses, analyze_video_poses]
  by_cases h0 : pd = []
  · rw [if_pos h0, if_pos h0]
    exact ⟨rfl, rfl⟩
  rw [if_neg h0, if_neg h0, analyze_exercise, analyze_exercise]
  by_cases h1 : strLower ex = "pushup"
  · rw [if_pos h1, if_pos h1, analyze_pushup, analyze_pushup]
    by_cases hg : pd.length < 10
    · rw [if_pos hg, if_pos hg]
      exact ⟨rfl, rfl⟩
    · rw [if_neg hg, if_neg hg]
      exact ⟨rfl, rfl⟩
  rw [if_neg h1, if_neg h1]
  by_cases h2 : strLower ex = "squat"
  · rw [if_pos h2, if_pos h2, analyze_squat, analyze_squat]
    by_cases hg : pd.length < 10
    · rw [if_pos hg, if_pos hg]
      exact ⟨rfl, rfl⟩
    · rw [if_neg hg, if_neg hg]
      exact ⟨rfl, rfl⟩
  rw [if_neg h2, if_neg h2]
  by_cases h3 : strLower ex = "deadlift"
  · rw [if_pos h3, if_pos h3, analyze_deadlift, analyze_deadlift]
    by_cases hg : pd.length < 10
    · rw [if_pos hg, if_pos hg]
      exact ⟨rfl, rfl⟩
    · rw [if_neg hg, if_neg hg]
      exact ⟨rfl, rfl⟩
  rw [if_neg h3, if_neg h3]
  by_cases h4 : strLower ex = "bench_press"
  · rw [if_pos h4, if_pos h4, analyze_bench_press, analyze_bench_press]
    by_cases hg : pd.length < 10
    · rw [if_pos hg, if_pos hg]
      exact ⟨rfl, rfl⟩
    · rw [if_neg hg, if_neg hg]
      exact ⟨rfl, rfl⟩
  rw [if_neg h4, if_neg h4]
  by_cases h5 : strLower ex = "pullup"
  · rw [if_pos h5, if_pos h5, analyze_pullup, analyze_pullup]
    by_cases hg : pd.length < 10
    · rw [if_pos hg, if_pos hg]
      exact ⟨rfl, rfl⟩
    · rw [if_neg hg, if_neg hg]
      exact ⟨rfl, rfl⟩
  rw [if_neg h5, if_neg h5]
  by_cases h6 : strLower ex = "plank"
  · rw [if_pos h6, if_pos h6, analyze_plank, analyze_plank]
    by_cases hg : pd.length < 10
    · rw [if_pos hg, if_pos hg]
      exact ⟨rfl, rfl⟩
    · rw [if_neg hg, if_neg hg]
      exact ⟨rfl, rfl⟩
  rw [if_neg h6, if_neg h6]
  by_cases h7 : strLower ex = "burpee"
  · rw [if_pos h7, if_pos h7, analyze_burpee, analyze_burpee]
    by_cases hg : pd.length < 10
    · rw [if_pos hg, if_pos hg]
      exact ⟨rfl, rfl⟩
    · rw [if_neg hg, if_neg hg]
      exact ⟨rfl, rfl⟩
  rw [if_neg h7, if_neg h7]
  by_cases h8 : strLower ex = "lunge"
  · rw [if_pos h8, if_pos h8, analyze_lunge, analyze_lunge]
    by_cases hg : pd.length < 10
    · rw [if_pos hg, if_pos hg]
      exact ⟨rfl, rfl⟩
    · rw [if_neg hg, if_neg hg]
      exact ⟨rfl, rfl⟩
  rw [if_neg h8, if_neg h8]
  by_cases h9 : strLower ex = "mountain_climber"
  · rw [if_pos h9, if_pos h9, analyze_mountain_climber, analyze_mountain_climber]
    by_cases hg : pd.length < 10
    · rw [if_pos hg, if_pos hg]
      exact ⟨rfl, rfl⟩
    · rw [if_neg hg, if_neg hg]
      exact ⟨rfl, rfl⟩
  rw [if_neg h9, if_neg h9]
  by_cases h10 : strLower ex = "jumping_jack"
  · rw [if_pos h10, if_pos h10, analyze_jumping_jack, analyze_jumping_jack]
    by_cases hg : pd.length < 10
    · rw [if_pos hg, if_pos hg]
      exact ⟨rfl, rfl⟩
    · rw [if_neg hg, if_neg hg]
      exact ⟨rfl, rfl⟩
  rw [if_neg h10, if_neg h10]
  exact ⟨rfl, rfl⟩

/-- Dispatcher fact shared by the generic-evaluator claims: an exercise label
whose lowercasing is outside the catalogue routes to `_analyze_generic`. -/
lemma analyze_exercise_generic (pd : List PoseFrame) (ex ts : String)
    (h : strLower ex ∉ catalogue) :
    analyze_exercise pd ex ts = analyze_generic pd ex ts := by
  simp only [catalogue, List.mem_cons, List.not_mem_nil, or_false, not_or] at h
  obtain ⟨h1, h2, h3, h4, h5, h6, h7, h8, h9, h10⟩ := h
  rw [analyze_exercise, if_neg h1, if_neg h2, if_neg h3, if_neg h4, if_neg h5,
      if_neg h6, if_neg h7, if_neg h8, if_neg h9, if_neg h10]

/-- C4 counterexample: on a single frame of mean visibility 0.855 the generic
evaluator returns `form_score = int(85.5) = 85`, while rounding
`100 * mean_visibility` as the claim states would give 86: the code truncates
toward zero rather than rounds. -/
theorem generic_score_truncates_not_rounds :
    (analyze_video_poses pdHalf ("kettlebell swing") "t").form_score = 85 ∧
    roundHalfEven (meanVis pdHalf * 100) = 86 := by
  have hm : meanVis pdHalf = 171 / 200 := by
    norm_num [meanVis, pdHalf, trivFrame]
  constructor
  · rw [analyze_video_poses, if_neg (by simp [pdHalf]),
        analyze_exercise_generic _ _ _ (by decide)]
    show pyInt (meanVis pdHalf * 100) = 85
    rw [hm, pyInt, if_neg (by norm_num)]
    rw [show (171 / 200 * 100 : ℚ) = 171 / 2 by norm_num]
    rw [Int.floor_eq_iff]
    norm_num
  · rw [hm, roundHalfEven]
    rw [show (171 / 200 * 100 : ℚ) = 171 / 2 by norm_num]
    rw [show Int.floor (171 / 2 : ℚ) = 85 by rw [Int.floor_eq_iff]; norm_num]
    norm_num

/-- C4 amended: for every label outside the catalogue (after lowercasing) and
every non-empty pose sequence, the generic evaluator returns
`form_score = int(100 * mean_visibility)` (truncation toward zero, not
rounding), rating Good iff mean visibility exceeds 0.7 and Fair otherwise,
and exactly the single fixed issue; mean visibility 0.9 still yields score 90
and rating Good since 90 is exact. -/
theorem generic_eval_spec (pd : List PoseFrame) (ex ts : String)
    (hne : pd ≠ []) (hun : strLower ex ∉ catalogue) :
    (analyze_video_poses pd ex ts).form_score = pyInt (meanVis pd * 100) ∧
    (analyze_video_poses pd ex ts).form_rating
        = (if meanVis pd > 7 / 10 then ("Good") else ("Fair")) ∧
    (analyze_video_poses pd ex ts).issues_detected
        = [("Analysis not yet implemented for this exercise")] ∧
    (meanVis pd = 9 / 10 →
      (analyze_video_poses pd ex ts).form_score = 90 ∧
      (analyze_video_poses pd ex ts).form_rating = "Good") := by
  rw [analyze_video_poses, if_neg hne, analyze_exercise_generic _ _ _ hun]
  refine ⟨rfl, rfl, rfl, ?_⟩
  intro hv
  constructor
  · show pyInt (meanVis pd * 100) = 90
    rw [hv, show (9 / 10 * 100 : ℚ) = 90 by norm_num, pyInt, if_neg (by norm_num),
        Int.floor_eq_iff]
    norm_num
  · show (if meanVis pd > 7 / 10 then ("Good") else ("Fair")) = "Good"
    rw [hv, if_pos (by norm_num)]

/-- C4 witness: instantiation at the label "kettlebell swing" on one frame of
visibility 0.9. -/
theorem generic_eval_spec_witness :
    (analyze_video_poses pdNine ("kettlebell swing") "t").form_score = 90 ∧
    (analyze_video_poses pdNine ("kettlebell swing") "t").form_rating = "Good" :=
  (generic_eval_spec pdNine ("kettlebell swing") "t" (by simp [pdNine]) (by decide)).2.2.2
    (by norm_num [meanVis, pdNine, trivFrame])

/-- C5 counterexample: for an 8-frame pushup sequence the evaluator
short-circuits to the error result whose single diagnostic issue is
"Video too short for pushup analysis" - a string that names the exercise but
does NOT contain "10", so it does not name the 10-frame threshold as the
claim states. -/
theorem tooshort_message_lacks_threshold :
    (analyze_exercise pd8 ("pushup") "t").issues_detected
        = [("Video too short for pushup analysis")] ∧
    strHasSub ("10") ("Video too short for pushup analysis") = false := by
  exact ⟨by decide, by decide⟩

/-- C5 amended: every exercise-specific evaluator uniformly short-circuits on
fewer than 10 frames to an error result with `form_score = 0`, rating Error,
and a single diagnostic issue that contains "too short" and the exercise's
human-readable name; the numeric threshold is not part of the message. -/
theorem length_gate_error (ex : String) (hex : ex ∈ catalogue)
    (pd : List PoseFrame) (ts : String) (h : pd.length < 10) :
    (analyze_exercise pd ex ts).form_score = 0 ∧
    (analyze_exercise pd ex ts).form_rating = "Error" ∧
    (analyze_exercise pd ex ts).issues_detected = [shortMsg ex] ∧
    strHasSub ("too short") (shortMsg ex) = true ∧
    strHasSub (displayName ex) (shortMsg ex) = true := by
  fin_cases hex
  · rw [dispatch_pushup, analyze_pushup, if_pos h]
    exact ⟨rfl, rfl, by simp only [mkError]; decide, by decide, by decide⟩
  · rw [dispatch_squat, analyze_squat, if_pos h]
    exact ⟨rfl, rfl, by simp only [mkError]; decide, by decide, by decide⟩
  · rw [dispatch_deadlift, analyze_deadlift, if_pos h]
    exact ⟨rfl, rfl, by simp only [mkError]; decide, by decide, by decide⟩
  · rw [dispatch_bench_press, analyze_bench_press, if_pos h]
    exact ⟨rfl, rfl, by simp only [mkError]; decide, by decide, by decide⟩
  · rw [dispatch_pullup, analyze_pullup, if_pos h]
    exact ⟨rfl, rfl, by simp only [mkError]; decide, by decide, by decide⟩
  · rw [dispatch_plank, analyze_plank, if_pos h]
    exact ⟨rfl, rfl, by simp only [mkError]; decide, by decide, by decide⟩
  · rw [dispatch_burpee, analyze_burpee, if_pos h]
    exact ⟨rfl, rfl, by simp only [mkError]; decide, by decide, by decide⟩
  · rw [dispatch_lunge, analyze_lunge, if_pos h]
    exact ⟨rfl, rfl, by simp only [mkError]; decide, by decide, by decide⟩
  · rw [dispatch_mountain_climber, analyze_mountain_climber, if_pos h]
    exact ⟨rfl, rfl, by simp only [mkError]; decide, by decide, by decide⟩
  · rw [dispatch_jumping_jack, analyze_jumping_jack, if_pos h]
    exact ⟨rfl, rfl, by simp only [mkError]; decide, by decide, by decide⟩

/-- C5 witness: instantiation at the squat evaluator on eight trivial
frames. -/
theorem length_gate_error_witness :
    (analyze_exercise pd8 ("squat") "t").form_rating = "Error" ∧
    (analyze_exercise pd8 ("squat") "t").form_score = 0 :=
  ⟨(length_gate_error ("squat") (by decide) pd8 "t" (by decide)).2.1,
   (length_gate_error ("squat") (by decide) pd8 "t" (by decide)).1⟩

/-- C6 counterexample: on the too-short error path (8-frame pushup sequence),
`_create_error_analysis` hardcodes `total_frames_analyzed = 0` (not the 8
input frames) and `exercise_type = "unknown"` (not the caller's label),
refuting the claim's extension to error paths. -/
theorem error_path_miscounts :
    (analyze_exercise pd8 ("pushup") "t").total_frames_analyzed = 0 ∧
    pd8.length = 8 ∧
    (analyze_exercise pd8 ("pushup") "t").exercise_type = "unknown" :=
  ⟨by decide, by decide, by decide⟩

/-- C6 amended: on non-error paths the fields are as the claim states: for a
catalogue exercise on at least 10 frames, `total_frames_analyzed` is the
frame count and `exercise_type` the catalogue label; for an unrecognized
label the generic evaluator reports the frame count (for any sequence) and
echoes the caller's label verbatim.  On error paths the result instead
carries the hardcoded values 0 and "unknown". -/
theorem frames_and_type_on_success (ex : String) (pd : List PoseFrame) (ts : String) :
    (ex ∈ catalogue → 10 ≤ pd.length →
      (analyze_exercise pd ex ts).total_frames_analyzed = pd.length ∧
      (analyze_exercise pd ex ts).exercise_type = ex) ∧
    (strLower ex ∉ catalogue →
      (analyze_exercise pd ex ts).total_frames_analyzed = pd.length ∧
      (analyze_exercise pd ex ts).exercise_type = ex) := by
  constructor
  · intro hex h
    fin_cases hex
    · exact ⟨(analyze_pushup_ok pd ts h).2.2.2.2.1, (analyze_pushup_ok pd ts h).2.2.2.2.2⟩
    · exact ⟨(analyze_squat_ok pd ts h).2.2.2.2.1, (analyze_squat_ok pd ts h).2.2.2.2.2⟩
    · exact ⟨(analyze_deadlift_ok pd ts h).2.2.2.2.1, (analyze_deadlift_ok pd ts h).2.2.2.2.2⟩
    · exact ⟨(analyze_bench_press_ok pd ts h).2.2.2.2.1, (analyze_bench_press_ok pd ts h).2.2.2.2.2⟩
    · exact ⟨(analyze_pullup_ok pd ts h).2.2.2.2.1, (analyze_pullup_ok pd ts h).2.2.2.2.2⟩
    · exact ⟨(analyze_plank_ok pd ts h).2.2.2.2.1, (analyze_plank_ok pd ts h).2.2.2.2.2⟩
    · exact ⟨(analyze_burpee_ok pd ts h).2.2.2.2.1, (analyze_burpee_ok pd ts h).2.2.2.2.2⟩
    · exact ⟨(analyze_lunge_ok pd ts h).2.2.2.2.1, (analyze_lunge_ok pd ts h).2.2.2.2.2⟩
    · exact ⟨(analyze_mountain_climber_ok pd ts h).2.2.2.2.1, (analyze_mountain_climber_ok pd ts h).2.2.2.2.2⟩
    · exact ⟨(analyze_jumping_jack_ok pd ts h).2.2.2.2.1, (analyze_jumping_jack_ok pd ts h).2.2.2.2.2⟩
  · intro hun
    rw [analyze_exercise_generic _ _ _ hun]
    exact ⟨rfl, rfl⟩

/-- C6 witness: instantiation at the pushup evaluator on ten trivial frames
and at the unrecognized label "yoga". -/
theorem frames_and_type_on_success_witness :
    (analyze_exercise pd10 ("pushup") "t").total_frames_analyzed = pd10.length ∧
    (analyze_exercise pd10 ("yoga") "t").exercise_type = "yoga" :=
  ⟨((frames_and_type_on_success ("pushup") pd10 "t").1 (by decide) (by decide)).1,
   ((frames_and_type_on_success ("yoga") pd10 "t").2 (by decide)).2⟩

/-- C7: the bench-press evaluator's three placeholder checks fire on frame
count alone: for more than 10 frames the issues are exactly the three fixed
labels with `form_score = 100 - 15 - 10 - 10 = 65` and rating Fair; for
exactly 10 frames no check fires, `form_score = 100`, rating Excellent. -/
theorem bench_press_placeholder_behavior (pd : List PoseFrame) (ts : String) :
    (10 < pd.length →
      (analyze_bench_press pd ts).issues_detected
          = [("Bar path not straight"), ("Shoulders not retracted"), ("Grip too wide")] ∧
      (analyze_bench_press pd ts).form_score = 65 ∧
      (analyze_bench_press pd ts).form_rating = "Fair") ∧
    (pd.length = 10 →
      (analyze_bench_press pd ts).issues_detected = [] ∧
      (analyze_bench_press pd ts).form_score = 100 ∧
      (analyze_bench_press pd ts).form_rating = "Excellent") := by
  constructor
  · intro h
    rw [analyze_bench_press, if_neg (by omega)]
    rw [show check_bench_press_bar_path pd = [("Bar path not straight")] by
          rw [check_bench_press_bar_path, lenGatedIssue, if_pos h],
        show check_bench_press_shoulders pd = [("Shoulders not retracted")] by
          rw [check_bench_press_shoulders, lenGatedIssue, if_pos h],
        show check_bench_press_grip pd = [("Grip too wide")] by
          rw [check_bench_press_grip, lenGatedIssue, if_pos h]]
    refine ⟨rfl, ?_, ?_⟩
    · show max 0 (100 - 15 * (1 : ℤ) - 10 * 1 - 10 * 1) = 65
      norm_num
    · show ratingOf (100 - 15 * (1 : ℤ) - 10 * 1 - 10 * 1) = "Fair"
      norm_num [ratingOf]
  · intro h
    rw [analyze_bench_press, if_neg (by omega)]
    rw [show check_bench_press_bar_path pd = [] by
          rw [check_bench_press_bar_path, lenGatedIssue, if_neg (by omega)],
        show check_bench_press_shoulders pd = [] by
          rw [check_bench_press_shoulders, lenGatedIssue, if_neg (by omega)],
        show check_bench_press_grip pd = [] by
          rw [check_bench_press_grip, lenGatedIssue, if_neg (by omega)]]
    refine ⟨rfl, ?_, ?_⟩
    · show max 0 (100 - 15 * (0 : ℤ) - 10 * 0 - 10 * 0) = 100
      norm_num
    · show ratingOf (100 - 15 * (0 : ℤ) - 10 * 0 - 10 * 0) = "Excellent"
      norm_num [ratingOf]

/-- C7 witness: instantiation on eleven and on ten trivial frames. -/
theorem bench_press_placeholder_witness :
    (analyze_bench_press pd11 "t").form_score = 65 ∧
    (analyze_bench_press pd10 "t").form_score = 100 :=
  ⟨((bench_press_placeholder_behavior pd11 "t").1 (by decide)).2.1,
   ((bench_press_placeholder_behavior pd10 "t").2 (by decide)).2.1⟩

/-- C8: a 15-frame pushup sequence in which every frame carries the required
landmarks, the shoulder-hip-knee angle check fires in every frame (a 30-degree
bend exceeds the 15-degree tolerance, as does the 45-degree witness geometry;
no rational coordinates realize exactly 30 degrees), the wrist-to-shoulder
width ratio does not fire (ratio 1.0), and the minimum shoulder-midpoint y is
0.5, yields "Body not straight" exactly once (the scan stops at the first
offending frame), `form_score = 90`, and rating Excellent: the 90 boundary is
still Excellent. -/
theorem pushup_scenario_bent_body (pd : List PoseFrame) (ts : String)
    (hlen : pd.length = 15)
    (halign : ∀ f ∈ pd, alignHit f = some ("Body not straight"))
    (harms : ∀ f ∈ pd, armsHit f = none)
    (hdepth : pushupMinY pd = some (1 / 2)) :
    (analyze_pushup pd ts).issues_detected = [("Body not straight")] ∧
    (analyze_pushup pd ts).form_score = 90 ∧
    (analyze_pushup pd ts).form_rating = "Excellent" := by
  have hne : pd ≠ [] := by
    intro he
    rw [he] at hlen
    simp at hlen
  have ha : check_body_alignment pd = [("Body not straight")] :=
    firstHit_all_some _ _ pd hne halign
  have hb : check_pushup_arms pd = [] := firstHit_all_none _ pd harms
  have hc : check_pushup_depth pd = [] := by
    rw [check_pushup_depth, if_neg (by omega), hdepth]
    norm_num
  rw [analyze_pushup, if_neg (by omega), ha, hb, hc]
  refine ⟨rfl, ?_, ?_⟩
  · show max 0 (100 - 10 * (1 : ℤ) - 15 * 0 - 20 * 0) = 90
    norm_num
  · show ratingOf (100 - 10 * (1 : ℤ) - 15 * 0 - 20 * 0) = "Excellent"
    norm_num [ratingOf]

/-- C8 witness: instantiation at fifteen copies of the bent-geometry
frame. -/
theorem pushup_scenario_bent_body_witness :
    (analyze_pushup pdBent "t").issues_detected = [("Body not straight")] ∧
    (analyze_pushup pdBent "t").form_score = 90 ∧
    (analyze_pushup pdBent "t").form_rating = "Excellent" :=
  pushup_scenario_bent_body pdBent "t" (by decide)
    (by
      intro f hf
      rw [pdBent] at hf
      rw [List.eq_of_mem_replicate hf]
      rw [show alignHit bentFrame = some ("Body not straight") by
        simp only [alignHit, bentFrame, lmGet]
        norm_num [cosLtCos15]])
    (by
      intro f hf
      rw [pdBent] at hf
      rw [List.eq_of_mem_replicate hf]
      rw [show armsHit bentFrame = none by
        simp only [armsHit, bentFrame, lmGet]
        norm_num])
    (by
      rw [pdBent]
      norm_num [pushupMinY, bentFrame, lmGet, List.replicate])

/-- C9: when zero frames yield a detected pose the analyzer recovers locally
(the embedding is a total function - no exception reaches the caller) and
returns the Error-rated result with `confidence_score = 0.0`,
`form_score = 0`, and the "No pose detected in video" diagnostic. -/
theorem no_pose_detected_recovered (ex ts : String) :
    (analyze_video_poses [] ex ts).form_rating = "Error" ∧
    (analyze_video_poses [] ex ts).confidence_score = 0 ∧
    (analyze_video_poses [] ex ts).form_score = 0 ∧
    (analyze_video_poses [] ex ts).issues_detected = [("No pose detected in video")] :=
  ⟨rfl, rfl, rfl, rfl⟩

/-- C10: for every catalogue exercise on at least 10 frames, each of the
evaluator's three checks contributes at most one issue (the plank hip check
yields at most one of its two labels), so `issues_detected` has at most 3
entries and `form_score` is at least 50 - the penalties sum to at most 50, so
the `max(0, score)` clamp never changes the value on this path. -/
theorem specific_checks_bounded :
    (∀ ex ∈ catalogue, ∀ (pd : List PoseFrame) (ts : String), 10 ≤ pd.length →
      (analyze_exercise pd ex ts).issues_detected.length ≤ 3 ∧
      50 ≤ (analyze_exercise pd ex ts).form_score) ∧
    (∀ pd : List PoseFrame, (check_plank_hips pd).length ≤ 1) := by
  constructor
  · intro ex hex pd ts h
    fin_cases hex
    · exact ⟨(analyze_pushup_ok pd ts h).2.2.1, (analyze_pushup_ok pd ts h).2.2.2.1⟩
    · exact ⟨(analyze_squat_ok pd ts h).2.2.1, (analyze_squat_ok pd ts h).2.2.2.1⟩
    · exact ⟨(analyze_deadlift_ok pd ts h).2.2.1, (analyze_deadlift_ok pd ts h).2.2.2.1⟩
    · exact ⟨(analyze_bench_press_ok pd ts h).2.2.1, (analyze_bench_press_ok pd ts h).2.2.2.1⟩
    · exact ⟨(analyze_pullup_ok pd ts h).2.2.1, (analyze_pullup_ok pd ts h).2.2.2.1⟩
    · exact ⟨(analyze_plank_ok pd ts h).2.2.1, (analyze_plank_ok pd ts h).2.2.2.1⟩
    · exact ⟨(analyze_burpee_ok pd ts h).2.2.1, (analyze_burpee_ok pd ts h).2.2.2.1⟩
    · exact ⟨(analyze_lunge_ok pd ts h).2.2.1, (analyze_lunge_ok pd ts h).2.2.2.1⟩
    · exact ⟨(analyze_mountain_climber_ok pd ts h).2.2.1, (analyze_mountain_climber_ok pd ts h).2.2.2.1⟩
    · exact ⟨(analyze_jumping_jack_ok pd ts h).2.2.1, (analyze_jumping_jack_ok pd ts h).2.2.2.1⟩
  · intro pd
    exact firstHit_length_le _ pd

/-- C10 witness: instantiation at the plank evaluator on ten trivial
frames. -/
theorem specific_checks_bounded_witness :
    (analyze_exercise pd10 ("plank") "t").issues_detected.length ≤ 3 ∧
    50 ≤ (analyze_exercise pd10 ("plank") "t").form_score ∧
    (check_plank_hips pd10).length ≤ 1 :=
  ⟨(specific_checks_bounded.1 ("plank") (by decide) pd10 "t" (by decide)).1,
   (specific_checks_bounded.1 ("plank") (by decide) pd10 "t" (by decide)).2,
   specific_checks_bounded.2 pd10⟩
